import Mathlib

/-!
Verification of kysely-pg-observables (src/src/walSubject.ts, src/src/types.ts,
and the observeQuery module) against its natural-language specification.

The embedding is shallow: each relevant source function is translated into an
executable Lean definition over explicit state.  Ghost counters (number of
get-changes requests issued, number of query starts, number of deliveries to
the subscriber, ...) record the observable actions the claims speak about; they
do not influence control flow except where the source itself branches on the
corresponding runtime condition.
-/

set_option autoImplicit false

/-! ### Event decoder (the decode loop inside getKyselyChanges, walSubject.ts) -/

/-- Raw wal2json oldkeys triple (walSubject.ts, interface Keys).  Column values
are opaque JSON scalars; they are modelled as strings since the decoder only
moves them around. -/
structure RawKeys where
  keynames : List String
  keytypes : List String
  keyvalues : List String
deriving DecidableEq

/-- Raw decoded WAL record (walSubject.ts, type WALChange).  The extra
constructor unknownKind stands for any record whose kind is none of
insert/update/delete; the decode loop emits nothing for such records. -/
inductive WALChange where
  | insert (schema table : String) (columnnames columntypes : List String)
      (columnvalues : List String)
  | update (schema table : String) (columnnames columntypes : List String)
      (columnvalues : List String) (oldkeys : RawKeys)
  | delete (schema table : String) (oldkeys : RawKeys)
  | unknownKind (kind schema table : String)
deriving DecidableEq

/-- Delivered change event (types.ts, SubjectChangeEvent).  Row and identity
maps are association lists in source order, as produced by
Object.fromEntries over the zipped column arrays. -/
inductive SubjectChangeEvent where
  | insert (table : String) (row : List (String × String))
  | update (table : String) (row : List (String × String))
  | delete (table : String) (identity : List (String × String))
deriving DecidableEq

/-- walSubject.ts line 205: multi-schema mode is on exactly when some
configured table name contains a dot.  The dot search is written over the
character list of the name so that it evaluates inside the kernel. -/
def isUsingMultipleSchemas (onlyIncludeTables : List String) : Bool :=
  onlyIncludeTables.any (fun t => t.toList.contains '.')

/-- The tableKey expression of the decode loop (walSubject.ts lines 221-225,
242-246, 263-267): in single-schema mode the bare record table name, in
multi-schema mode the configured default schema joined with the record table.
Note the source interpolates the closure variable `schema` (assumeSchema),
not the raw record's own schema field. -/
def tableKey (multi : Bool) (schema table : String) : String :=
  if multi = false then table else schema ++ "." ++ table

/-- One iteration of the decode loop of getKyselyChanges (walSubject.ts lines
214-277).  The record's own schema field is bound but unused, exactly as in
the source, and the caller-supplied primaryKeyMap does not appear at all:
the loop never consults it. -/
def decodeChange (multi : Bool) (schema : String) :
    WALChange → Option SubjectChangeEvent
  | WALChange.insert _recordSchema table names _types values =>
      some (SubjectChangeEvent.insert (tableKey multi schema table)
        (names.zip values))
  | WALChange.update _recordSchema table names _types values _old =>
      some (SubjectChangeEvent.update (tableKey multi schema table)
        (names.zip values))
  | WALChange.delete _recordSchema table old =>
      some (SubjectChangeEvent.delete (tableKey multi schema table)
        (old.keynames.zip old.keyvalues))
  | WALChange.unknownKind _ _ _ => none

/-! ### getChanges and the overlap guard (walSubject.ts lines 109-171) -/

/-- Outcome of one pg_logical_slot_get_changes request, as seen by getChanges:
either a batch of rows (its size is irrelevant to the claims) or a thrown
driver error carrying a code string. -/
inductive PollOutcome where
  | ok (batch : Nat)
  | err (code : String)
deriving DecidableEq

/-- State touched by getChanges.  currentlyGettingChanges is the guard flag
(module scope in the source, walSubject.ts line 109); the Nat fields are ghost
counters: get-changes requests issued, pg_create_logical_replication_slot
calls made, console.warn calls, and changeHandler invocations. -/
structure GCState where
  currentlyGettingChanges : Bool
  requests : Nat
  slotCreates : Nat
  warns : Nat
  handlerRuns : Nat
deriving DecidableEq

/-- How one call to getChanges settles: a normal return or a thrown error. -/
inductive GCResult where
  | returned
  | threw (code : String)
deriving DecidableEq

/-- Body of getChanges, parametrised over the recursive retry call.  The db
argument scripts the outcome of the i-th get-changes request, creates scripts
the success of the i-th createSlot call.  Faithful control flow of
walSubject.ts lines 110-171: early return when the guard flag is set;
otherwise set the flag, issue the request; on success run the changeHandler
and return; on error with code 42704 warn, re-create the slot on the same
session, warn again, make the recursive retry call (with the guard flag still
set, since the finally block has not run yet) and then rethrow the original
error; on any other error just rethrow; every exit from the guarded region
goes through the finally block, which clears the flag. -/
def getChangesGo (db : Nat → PollOutcome) (creates : Nat → Bool)
    (retry : GCState → GCState × GCResult) (s : GCState) :
    GCState × GCResult :=
  if s.currentlyGettingChanges then (s, GCResult.returned)
  else
    match db s.requests with
    | PollOutcome.ok _n =>
        ({ s with requests := s.requests + 1,
                  handlerRuns := s.handlerRuns + 1,
                  currentlyGettingChanges := false }, GCResult.returned)
    | PollOutcome.err code =>
        if code = "42704" then
          if creates s.slotCreates then
            match retry { s with requests := s.requests + 1,
                                 warns := s.warns + 2,
                                 slotCreates := s.slotCreates + 1,
                                 currentlyGettingChanges := true } with
            | (s₃, GCResult.returned) =>
                ({ s₃ with currentlyGettingChanges := false },
                 GCResult.threw code)
            | (s₃, GCResult.threw c) =>
                ({ s₃ with currentlyGettingChanges := false },
                 GCResult.threw c)
          else
            ({ s with requests := s.requests + 1,
                      warns := s.warns + 1,
                      slotCreates := s.slotCreates + 1,
                      currentlyGettingChanges := false },
             GCResult.threw "slot-create-failed")
        else
          ({ s with requests := s.requests + 1,
                    currentlyGettingChanges := false }, GCResult.threw code)

/-- getChanges with a fuel bound on the retry recursion.  In the source the
recursive call always enters with the guard flag still true and therefore
returns immediately, so the fuel-0 base (treat the retry as an immediate
return) coincides with the actual behaviour at every reachable state. -/
def getChanges (db : Nat → PollOutcome) (creates : Nat → Bool) :
    Nat → GCState → GCState × GCResult
  | 0 => getChangesGo db creates (fun s => (s, GCResult.returned))
  | fuel + 1 => getChangesGo db creates (getChanges db creates fuel)

/-! ### Two coexisting streams sharing the module-scope guard flag -/

/-- Per-stream ghost observations of the poller: get-changes requests issued
on behalf of this stream, and poll ticks skipped by the overlap guard. -/
structure StreamPollState where
  requests : Nat
  skippedTicks : Nat
deriving DecidableEq

/-- Two streams coexisting in one process.  Because currentlyGettingChanges is
declared at module scope in walSubject.ts (line 109), both streams read and
write the same flag. -/
structure TwoStreamWorld where
  currentlyGettingChanges : Bool
  streamA : StreamPollState
  streamB : StreamPollState
deriving DecidableEq

/-- The pre-await half of getChanges for one poll tick: check the shared
guard flag; if set, skip this tick; otherwise set it and issue the
get-changes request.  Splitting the source function at its await models the
poll being in flight between beginPoll and endPoll. -/
def beginPoll (flag : Bool) (st : StreamPollState) : Bool × StreamPollState :=
  if flag then (flag, { st with skippedTicks := st.skippedTicks + 1 })
  else (true, { st with requests := st.requests + 1 })

/-- The post-await half of getChanges: the finally block clears the flag. -/
def endPoll (st : StreamPollState) : Bool × StreamPollState := (false, st)

/-- A poll tick of stream A against the shared module-scope flag. -/
def tickA (w : TwoStreamWorld) : TwoStreamWorld :=
  { w with currentlyGettingChanges := (beginPoll w.currentlyGettingChanges w.streamA).1,
           streamA := (beginPoll w.currentlyGettingChanges w.streamA).2 }

/-- A poll tick of stream B against the shared module-scope flag. -/
def tickB (w : TwoStreamWorld) : TwoStreamWorld :=
  { w with currentlyGettingChanges := (beginPoll w.currentlyGettingChanges w.streamB).1,
           streamB := (beginPoll w.currentlyGettingChanges w.streamB).2 }

/-! ### Teardown (walSubject.ts lines 288-293, dropSlot lines 99-107) -/

/-- Observable state of one stream's slot, session and subject. -/
structure TeardownState where
  intervalCleared : Bool
  slotExists : Bool
  clientReleased : Bool
  subjectCompleted : Bool
deriving DecidableEq

/-- dropSlot (walSubject.ts lines 99-107): issue the drop statement and
swallow every error.  A drop attempted through an already-released session
fails at the driver and is likewise swallowed, leaving the state unchanged. -/
def dropSlot (s : TeardownState) : TeardownState :=
  if s.clientReleased then s else { s with slotExists := false }

/-- client.release().  The pool driver (pg) rejects a release of a client
that has already been returned to the pool ("Release called on client which
has already been released to the pool"); the Bool result records whether the
call threw. -/
def releaseClient (s : TeardownState) : TeardownState × Bool :=
  if s.clientReleased then (s, true)
  else ({ s with clientReleased := true }, false)

/-- teardown (walSubject.ts lines 288-293): clearInterval, best-effort
dropSlot, client.release(), subject.complete().  The Bool result records
whether the call rejected; a throw from release propagates, so
subject.complete() is only reached when release succeeded. -/
def teardown (s : TeardownState) : TeardownState × Bool :=
  match releaseClient (dropSlot { s with intervalCleared := true }) with
  | (s₃, true) => (s₃, true)
  | (s₃, false) => ({ s₃ with subjectCompleted := true }, false)

/-! ### Reactive Query Runner (observeQuery)

The per-subscription closure state of observeQuery, at the suspension-point
granularity of spec section 5: every transition of the coalescing state
machine is a synchronous block of the source and runs atomically; the events
below are the resumptions that trigger those blocks.  Query results are
modelled as natural numbers. -/

/-- The closure state created by one subscription to the observable returned
by observeQuery, plus ghost counters.  runningQuery and queueNextQuery mirror
the source variables of the same names (true = not undefined); closed is the
subscriber/subscription closed flag (set by unsubscribe and by
subscriber.error); errored records a query rejection; inFlight counts the
query() calls currently executing; queryStarts counts query() invocations;
nextCount counts deliveries to the subscriber; handlerCalls counts handler
invocations, performed when the subject delivers a change to this runner. -/
structure RunnerState where
  runningQuery : Bool
  queueNextQuery : Bool
  lastResult : Option Nat
  closed : Bool
  errored : Bool
  inFlight : Nat
  queryStarts : Nat
  nextCount : Nat
  handlerCalls : Nat
deriving DecidableEq

/-- The state immediately after the subscribe callback ran: the source calls
runQueryAndCallNextIfExists() once before subscribing to the subject, so one
query() is already in flight. -/
def initRunner : RunnerState :=
  { runningQuery := true, queueNextQuery := false, lastResult := none,
    closed := false, errored := false, inFlight := 1, queryStarts := 1,
    nextCount := 0, handlerCalls := 0 }

/-- Atomic events of one runner.  deliver: the subject delivers a change to
this runner and the matching handler is invoked (once the subject
subscription is detached by unsubscribe, lines 149-151, no delivery reaches
this runner); accept: a handler evaluation begun at some earlier delivery
resolves true and the coalescing block (lines 120-135) runs -- that block
performs no closed check, so it also runs when the evaluation resolves after
unsubscribe; reject: a handler evaluation resolves false and the change is
discarded; complete r: the in-flight query() resolved with r and the
then-callback of runQueryAndCallNextIfExists runs; fail: the in-flight
query() rejected and the catch-callback runs; unsub: the subscription
teardown runs. -/
inductive Ev where
  | deliver
  | accept
  | reject
  | complete (r : Nat)
  | fail
  | unsub
deriving DecidableEq

/-- One atomic transition of the runner.  Events whose triggering condition is
absent in the current state (a delivery on a detached subscription, a
completion with no query executing) cannot occur and leave the state
unchanged.

deliver follows the subject subscription of observeQuery lines 103-118: the
async next callback looks up and invokes the handler; after unsubscribe the
subject no longer calls this runner's next, so no new invocation begins.

accept follows observeQuery lines 120-135, the synchronous block after the
awaited handler resolved true: no query running and none queued starts a
query; a query running and none queued sets queueNextQuery; otherwise
nothing.  The source performs no closed check here, so the block runs even
when the handler resolves after unsubscribe (or after an error, where
runningQuery is still set because the catch path never clears it).

complete follows runQueryAndCallNextIfExists lines 76-91: store lastResult,
deliver next (a no-op on a closed subscriber), then, whether or not the
subscriber is closed, start the queued run if queueNextQuery is set,
otherwise the runner goes idle.

fail follows lines 92-94: subscriber.error closes the subscription; the
source never resets runningQuery in this path.

unsub follows lines 149-151: only the subject subscription is detached;
queueNextQuery, pending handler evaluations and the in-flight query are left
untouched. -/
def runnerStep (s : RunnerState) : Ev → RunnerState
  | Ev.deliver =>
      if s.closed then s
      else { s with handlerCalls := s.handlerCalls + 1 }
  | Ev.accept =>
      if !s.runningQuery && !s.queueNextQuery then
        { s with runningQuery := true,
                 inFlight := s.inFlight + 1, queryStarts := s.queryStarts + 1 }
      else if s.runningQuery && !s.queueNextQuery then
        { s with queueNextQuery := true }
      else s
  | Ev.reject => s
  | Ev.complete r =>
      if s.inFlight = 0 then s
      else if s.queueNextQuery then
        { s with lastResult := some r, queueNextQuery := false,
                 runningQuery := true,
                 nextCount := if s.closed then s.nextCount else s.nextCount + 1,
                 queryStarts := s.queryStarts + 1 }
      else
        { s with lastResult := some r, runningQuery := false,
                 inFlight := s.inFlight - 1,
                 nextCount := if s.closed then s.nextCount else s.nextCount + 1 }
  | Ev.fail =>
      if s.inFlight = 0 then s
      else { s with inFlight := s.inFlight - 1, errored := true, closed := true }
  | Ev.unsub => { s with closed := true }

/-- Run a trace of events from a state. -/
def runTrace : RunnerState → List Ev → RunnerState
  | s, [] => s
  | s, e :: t => runTrace (runnerStep s e) t

/-- The runner invariant: the number of executing query() calls is 1 exactly
when a non-errored query is recorded as running; an errored runner is closed;
and an errored runner still records runningQuery (the catch path of
runQueryAndCallNextIfExists never clears the variable), which is what keeps
a late handler resolution from starting a query after an error. -/
def RunnerInv (s : RunnerState) : Prop :=
  s.inFlight = (if s.runningQuery && !s.errored then 1 else 0) ∧
  (s.errored = true → s.closed = true) ∧
  (s.errored = true → s.runningQuery = true)

lemma runnerInv_init : RunnerInv initRunner := by
  refine ⟨rfl, ?_, ?_⟩ <;> intro h <;> simp [initRunner] at h

lemma runnerInv_step (s : RunnerState) (e : Ev) (h : RunnerInv s) :
    RunnerInv (runnerStep s e) := by
  obtain ⟨h₁, h₂, h₃⟩ := h
  rcases s with ⟨rq, qn, lr, cl, er, inF, qs, nc, hc⟩
  simp only at h₁ h₂ h₃
  cases rq <;> cases qn <;> cases cl <;> cases er <;>
    cases e <;>
    simp_all [runnerStep, RunnerInv]

lemma runnerInv_runTrace :
    ∀ (t : List Ev) (s : RunnerState), RunnerInv s → RunnerInv (runTrace s t)
  | [], _, h => h
  | e :: t, s, h => runnerInv_runTrace t (runnerStep s e) (runnerInv_step s e h)

lemma runTrace_append (s : RunnerState) (t₁ t₂ : List Ev) :
    runTrace s (t₁ ++ t₂) = runTrace (runTrace s t₁) t₂ := by
  induction t₁ generalizing s with
  | nil => rfl
  | cons e t ih => simpa [runTrace] using ih (runnerStep s e)

/-! ### The observable is cold: per-subscriber runner systems -/

/-- k subscriptions to the observable returned by observeQuery: the subscribe
callback runs once per subscriber, so each subscriber gets a fresh copy of
the closure state (the source declares runningQuery, queueNextQuery and
lastResult with let inside the callback). -/
def subscribeK (k : Nat) : List RunnerState := List.replicate k initRunner

/-- Total number of query() invocations across a system of runners. -/
def totalStarts (l : List RunnerState) : Nat :=
  (l.map RunnerState.queryStarts).sum

/-- Apply one event to the i-th runner of a system; other runners are
untouched, because each closure owns its own state. -/
def stepAt : List RunnerState → Nat → Ev → List RunnerState
  | [], _, _ => []
  | s :: rest, 0, e => runnerStep s e :: rest
  | s :: rest, i + 1, e => s :: stepAt rest i e

/-! ### Helper lemmas about the runner -/

lemma runnerStep_accept_running (s : RunnerState)
    (h₁ : s.runningQuery = true) :
    runnerStep s Ev.accept = { s with queueNextQuery := true } := by
  rcases s with ⟨rq, qn, lr, cl, er, inF, qs, nc, hc⟩
  simp only at h₁
  subst h₁
  cases qn <;> simp [runnerStep]

/-- While a query is running, any positive number of accepted invalidations
only sets queueNextQuery; nothing else changes and in particular no query
starts. -/
lemma runTrace_accepts (n : Nat) :
    ∀ (s : RunnerState), s.runningQuery = true →
      runTrace s (List.replicate (n + 1) Ev.accept)
        = { s with queueNextQuery := true } := by
  induction n with
  | zero =>
      intro s h₁
      simpa [List.replicate, runTrace] using runnerStep_accept_running s h₁
  | succ n ih =>
      intro s h₁
      have hstep := runnerStep_accept_running s h₁
      have hrw : runTrace s (List.replicate (n + 2) Ev.accept)
          = runTrace (runnerStep s Ev.accept)
              (List.replicate (n + 1) Ev.accept) := by
        simp [List.replicate, runTrace]
      rw [hrw, hstep, ih _ (by simp [h₁])]

lemma runnerStep_closed (s : RunnerState) (e : Ev) (h : s.closed = true) :
    (runnerStep s e).closed = true := by
  rcases s with ⟨rq, qn, lr, cl, er, inF, qs, nc, hc⟩
  simp only at h
  subst h
  cases e <;> simp only [runnerStep] <;> split_ifs <;> simp

/-- One step on a closed runner delivers nothing to the subscriber and begins
no handler invocation. -/
lemma runnerStep_closed_counts (s : RunnerState) (e : Ev)
    (h : s.closed = true) :
    (runnerStep s e).nextCount = s.nextCount ∧
    (runnerStep s e).handlerCalls = s.handlerCalls := by
  rcases s with ⟨rq, qn, lr, cl, er, inF, qs, nc, hc⟩
  simp only at h
  subst h
  cases e <;> cases qn <;> simp [runnerStep] <;> split_ifs <;> simp

/-- Any event other than an accepted handler resolution leaves the potential
queryStarts + (1 if a run is queued) non-increasing: only the coalescing
block of an accepted resolution can create a new or queued run. -/
lemma runnerStep_potential (s : RunnerState) (e : Ev) (he : e ≠ Ev.accept) :
    (runnerStep s e).queryStarts
        + (if (runnerStep s e).queueNextQuery then 1 else 0)
      ≤ s.queryStarts + (if s.queueNextQuery then 1 else 0) := by
  rcases s with ⟨rq, qn, lr, cl, er, inF, qs, nc, hc⟩
  cases e <;> cases qn <;> simp_all [runnerStep] <;> split_ifs <;> simp_all

lemma runTrace_closed_counts (t : List Ev) :
    ∀ (s : RunnerState), s.closed = true →
      (runTrace s t).nextCount = s.nextCount ∧
      (runTrace s t).handlerCalls = s.handlerCalls := by
  induction t with
  | nil => intro s _; exact ⟨rfl, rfl⟩
  | cons e t ih =>
      intro s h
      obtain ⟨hn, hh⟩ := runnerStep_closed_counts s e h
      obtain ⟨ihn, ihh⟩ := ih (runnerStep s e) (runnerStep_closed s e h)
      exact ⟨by simpa [runTrace, ihn] using hn,
        by simpa [runTrace, ihh] using hh⟩

lemma runTrace_no_accept_potential (t : List Ev) :
    ∀ (s : RunnerState), Ev.accept ∉ t →
      (runTrace s t).queryStarts
          + (if (runTrace s t).queueNextQuery then 1 else 0)
        ≤ s.queryStarts + (if s.queueNextQuery then 1 else 0) := by
  induction t with
  | nil => intro s _; exact le_refl _
  | cons e t ih =>
      intro s ht
      have he : e ≠ Ev.accept := by
        intro h
        exact ht (by rw [← h]; exact List.mem_cons_self e t)
      have ht' : Ev.accept ∉ t := fun h => ht (List.mem_cons_of_mem e h)
      calc (runTrace s (e :: t)).queryStarts
            + (if (runTrace s (e :: t)).queueNextQuery then 1 else 0)
          = (runTrace (runnerStep s e) t).queryStarts
            + (if (runTrace (runnerStep s e) t).queueNextQuery then 1 else 0) := by
            simp [runTrace]
        _ ≤ (runnerStep s e).queryStarts
            + (if (runnerStep s e).queueNextQuery then 1 else 0) :=
            ih (runnerStep s e) ht'
        _ ≤ s.queryStarts + (if s.queueNextQuery then 1 else 0) :=
            runnerStep_potential s e he

lemma stepAt_get_ne (e : Ev) :
    ∀ (l : List RunnerState) (i j : Nat), i ≠ j →
      (stepAt l i e).get? j = l.get? j := by
  intro l
  induction l with
  | nil => intro i j _; cases i <;> rfl
  | cons s rest ih =>
      intro i j hij
      cases i with
      | zero =>
          cases j with
          | zero => exact absurd rfl hij
          | succ j => rfl
      | succ i =>
          cases j with
          | zero => rfl
          | succ j =>
              simpa [stepAt] using ih i j (fun h => hij (by rw [h]))

lemma totalStarts_subscribeK (k : Nat) : totalStarts (subscribeK k) = k := by
  induction k with
  | zero => rfl
  | succ k ih =>
      simp only [subscribeK, totalStarts, List.replicate, List.map_cons,
        List.sum_cons] at *
      rw [ih]
      simp [initRunner]
      omega

lemma getChangesGo_flag (db : Nat → PollOutcome) (creates : Nat → Bool)
    (retry : GCState → GCState × GCResult) (s : GCState)
    (h : s.currentlyGettingChanges = false) :
    ((getChangesGo db creates retry s).1).currentlyGettingChanges = false := by
  unfold getChangesGo
  rw [if_neg (by simp [h])]
  repeat' split
  all_goals rfl

/-! ### Claim theorems -/

/-- C1: In a Reactive Query Runner with a query() execution in flight on an
open, non-errored subscription, N = n + 1 ≥ 1 accepted invalidations start no
query while the run is in flight; the successful completion of the in-flight
run then starts exactly one follow-up run (queryStarts grows by one and a run
is again in flight); and the follow-up's own completion, with no further
invalidations, starts nothing more.  So the number of subsequent runs is
exactly 1, not 0 and not N, and the follow-up starts only after the current
run finishes. -/
theorem coalescing_exactly_one_followup (s : RunnerState) (hinv : RunnerInv s)
    (hrun : s.runningQuery = true) (hcl : s.closed = false)
    (herr : s.errored = false) (n r₁ r₂ : Nat) :
    (runTrace s (List.replicate (n + 1) Ev.accept)).queryStarts
      = s.queryStarts ∧
    (runTrace s (List.replicate (n + 1) Ev.accept
        ++ [Ev.complete r₁])).queryStarts = s.queryStarts + 1 ∧
    (runTrace s (List.replicate (n + 1) Ev.accept
        ++ [Ev.complete r₁])).runningQuery = true ∧
    (runTrace s (List.replicate (n + 1) Ev.accept
        ++ [Ev.complete r₁, Ev.complete r₂])).queryStarts
      = s.queryStarts + 1 ∧
    (runTrace s (List.replicate (n + 1) Ev.accept
        ++ [Ev.complete r₁, Ev.complete r₂])).runningQuery = false := by
  have hIF : s.inFlight = 1 := by rw [hinv.1, hrun, herr]; rfl
  have hacc := runTrace_accepts n s hrun
  rcases s with ⟨rq, qn, lr, cl, er, inF, qs, nc, hc⟩
  simp only at hrun hcl herr hIF
  subst hrun; subst hcl; subst herr; subst hIF
  refine ⟨?_, ?_, ?_, ?_, ?_⟩
  · rw [hacc]
  · rw [runTrace_append, hacc]; simp [runTrace, runnerStep]
  · rw [runTrace_append, hacc]; simp [runTrace, runnerStep]
  · rw [runTrace_append, hacc]; simp [runTrace, runnerStep]
  · rw [runTrace_append, hacc]; simp [runTrace, runnerStep]

/-- Witness for C1 at the freshly subscribed runner with two invalidations
arriving during the initial run. -/
theorem coalescing_exactly_one_followup_witness :
    (RunnerInv initRunner ∧ initRunner.runningQuery = true ∧
      initRunner.closed = false ∧ initRunner.errored = false) ∧
    ((runTrace initRunner (List.replicate 2 Ev.accept)).queryStarts
        = initRunner.queryStarts ∧
      (runTrace initRunner (List.replicate 2 Ev.accept
          ++ [Ev.complete 5])).queryStarts = initRunner.queryStarts + 1 ∧
      (runTrace initRunner (List.replicate 2 Ev.accept
          ++ [Ev.complete 5])).runningQuery = true ∧
      (runTrace initRunner (List.replicate 2 Ev.accept
          ++ [Ev.complete 5, Ev.complete 6])).queryStarts
        = initRunner.queryStarts + 1 ∧
      (runTrace initRunner (List.replicate 2 Ev.accept
          ++ [Ev.complete 5, Ev.complete 6])).runningQuery = false) :=
  ⟨⟨runnerInv_init, rfl, rfl, rfl⟩,
    coalescing_exactly_one_followup initRunner runnerInv_init rfl rfl rfl 1 5 6⟩

/-- C2: from subscription on, whatever interleaving of invalidations,
handler rejections, query completions, failures and unsubscription occurs,
the number of concurrently executing query() calls never exceeds 1. -/
theorem at_most_one_query_in_flight (t : List Ev) :
    (runTrace initRunner t).inFlight ≤ 1 := by
  obtain ⟨h₁, _⟩ := runnerInv_runTrace t initRunner runnerInv_init
  rw [h₁]
  split <;> omega

/-- C3 (code bug): a poll failing with code 42704 recreates the slot, but the
recursive retry enters getChanges while currentlyGettingChanges is still true
and is skipped, so only one get-changes request is ever issued (requests = 1,
the retry issues none), and the original error is rethrown (threw "42704"
rather than returned).  The second conjunct is the healthy baseline: a
successful poll also issues exactly one request and returns. -/
theorem slot_missing_retry_skipped_and_rethrown :
    getChanges (fun _ => PollOutcome.err "42704") (fun _ => true) 2
        ⟨false, 0, 0, 0, 0⟩
      = (⟨false, 1, 1, 2, 0⟩, GCResult.threw "42704") ∧
    getChanges (fun _ => PollOutcome.ok 1) (fun _ => true) 2
        ⟨false, 0, 0, 0, 0⟩
      = (⟨false, 1, 0, 0, 1⟩, GCResult.returned) := by
  decide

/-- C4 counterexample: with a follow-up queued (one accepted invalidation
during the initial run), unsubscribing and then letting the in-flight query
complete starts a new query() execution: queryStarts is 1 when unsubscribe
returns and 2 after the completion, although the subscription is closed. -/
theorem unsubscribe_queued_query_still_starts :
    (runTrace initRunner [Ev.accept, Ev.unsub]).closed = true ∧
    (runTrace initRunner [Ev.accept, Ev.unsub]).queryStarts = 1 ∧
    (runTrace initRunner [Ev.accept, Ev.unsub, Ev.complete 7]).queryStarts = 2 := by
  decide

/-- C4 amended: after unsubscribe() returns (the runner is closed), no next
is ever delivered to the subscriber and no new handler invocation begins.
query() executions may still start, from the follow-up queued before
unsubscribing and from handler evaluations that were already in flight at
unsubscribe and resolve true afterwards (the coalescing block has no closed
check); in any continuation in which no such late evaluation resolves true,
at most the already-queued follow-up starts. -/
theorem unsubscribe_silences_subscriber (s : RunnerState)
    (h : s.closed = true) (t : List Ev) :
    (runTrace s t).nextCount = s.nextCount ∧
    (runTrace s t).handlerCalls = s.handlerCalls ∧
    (Ev.accept ∉ t →
      (runTrace s t).queryStarts
        ≤ s.queryStarts + (if s.queueNextQuery then 1 else 0)) := by
  obtain ⟨hn, hh⟩ := runTrace_closed_counts t s h
  exact ⟨hn, hh, fun ht =>
    le_trans (Nat.le_add_right _ _) (runTrace_no_accept_potential t s ht)⟩

/-- Witness for the amended C4 at the closed state reached by queuing one
invalidation and unsubscribing, against a continuation trace with no late
accepted resolution. -/
theorem unsubscribe_silences_subscriber_witness :
    (runTrace initRunner [Ev.accept, Ev.unsub]).closed = true ∧
    ((runTrace (runTrace initRunner [Ev.accept, Ev.unsub])
          [Ev.complete 7, Ev.reject, Ev.complete 8]).nextCount
        = (runTrace initRunner [Ev.accept, Ev.unsub]).nextCount ∧
      (runTrace (runTrace initRunner [Ev.accept, Ev.unsub])
          [Ev.complete 7, Ev.reject, Ev.complete 8]).handlerCalls
        = (runTrace initRunner [Ev.accept, Ev.unsub]).handlerCalls ∧
      (Ev.accept ∉ [Ev.complete 7, Ev.reject, Ev.complete 8] →
        (runTrace (runTrace initRunner [Ev.accept, Ev.unsub])
            [Ev.complete 7, Ev.reject, Ev.complete 8]).queryStarts
          ≤ (runTrace initRunner [Ev.accept, Ev.unsub]).queryStarts
            + (if (runTrace initRunner [Ev.accept, Ev.unsub]).queueNextQuery
                then 1 else 0))) :=
  ⟨by decide,
    unsubscribe_silences_subscriber (runTrace initRunner [Ev.accept, Ev.unsub])
      (by decide) [Ev.complete 7, Ev.reject, Ev.complete 8]⟩

/-- C5 counterexample: with primaryKeyMap omitting the table (so the claim
predicts identity exactly of the form id maps to a value), a delete whose
oldkeys carry the two columns id and kind decodes to an identity carrying
both columns, not just id. -/
theorem delete_identity_not_narrowed :
    decodeChange false "public"
        (WALChange.delete "public" "widgets"
          ⟨["id", "kind"], ["integer", "text"], ["7", "slinky"]⟩)
      = some (SubjectChangeEvent.delete "widgets"
          [("id", "7"), ("kind", "slinky")]) ∧
    some (SubjectChangeEvent.delete "widgets" [("id", "7"), ("kind", "slinky")])
      ≠ some (SubjectChangeEvent.delete "widgets" [("id", "7")]) := by
  decide

/-- C5 amended: at runtime a delete event's identity is exactly the decoder's
oldkeys, keynames zipped with keyvalues in source order (so its column set is
exactly the oldkeys column set), independent of any declared identity
columns: decodeChange never consults the primaryKeyMap. -/
theorem delete_identity_is_oldkeys (multi : Bool)
    (schema recordSchema table : String) (old : RawKeys)
    (h : old.keynames.length ≤ old.keyvalues.length) :
    decodeChange multi schema (WALChange.delete recordSchema table old)
      = some (SubjectChangeEvent.delete (tableKey multi schema table)
          (old.keynames.zip old.keyvalues)) ∧
    (old.keynames.zip old.keyvalues).map Prod.fst = old.keynames :=
  ⟨rfl, List.map_fst_zip _ _ h⟩

/-- Witness for the amended C5 at a concrete delete record. -/
theorem delete_identity_is_oldkeys_witness :
    (RawKeys.mk ["id"] ["integer"] ["7"]).keynames.length
        ≤ (RawKeys.mk ["id"] ["integer"] ["7"]).keyvalues.length ∧
    (decodeChange false "public"
        (WALChange.delete "public" "widgets" ⟨["id"], ["integer"], ["7"]⟩)
      = some (SubjectChangeEvent.delete (tableKey false "public" "widgets")
          ((RawKeys.mk ["id"] ["integer"] ["7"]).keynames.zip
            (RawKeys.mk ["id"] ["integer"] ["7"]).keyvalues)) ∧
    ((RawKeys.mk ["id"] ["integer"] ["7"]).keynames.zip
        (RawKeys.mk ["id"] ["integer"] ["7"]).keyvalues).map Prod.fst
      = (RawKeys.mk ["id"] ["integer"] ["7"]).keynames) :=
  ⟨by decide,
    delete_identity_is_oldkeys false "public" "public" "widgets"
      ⟨["id"], ["integer"], ["7"]⟩ (by decide)⟩

/-- C6 (code bug): multi-schema mode is indeed fixed at stream creation by
looking for a dot in the configured table names, and in single-schema mode
the schema prefix is omitted; but in multi-schema mode a record from
schema_two.widgets is delivered with table "public.widgets" (the configured
assumeSchema), not with the row's own fully qualified name
"schema_two.widgets". -/
theorem multi_schema_uses_assumed_schema :
    isUsingMultipleSchemas ["widgets", "schema_two.widgets"] = true ∧
    decodeChange true "public"
        (WALChange.insert "schema_two" "widgets" ["id"] ["integer"] ["7"])
      = some (SubjectChangeEvent.insert "public.widgets" [("id", "7")]) ∧
    decodeChange true "public"
        (WALChange.insert "schema_two" "widgets" ["id"] ["integer"] ["7"])
      ≠ some (SubjectChangeEvent.insert ("schema_two" ++ "." ++ "widgets")
          [("id", "7")]) ∧
    decodeChange false "public"
        (WALChange.insert "public" "widgets" ["id"] ["integer"] ["7"])
      = some (SubjectChangeEvent.insert "widgets" [("id", "7")]) := by
  decide

/-- C7 (code bug): starting from a fresh world, a poll of stream A sets the
single module-scope flag, the next tick of stream B is therefore skipped (it
issues no get-changes request and records a skipped tick), whereas from the
fresh world the same tick of B does poll.  So an in-flight poll of one stream
does suppress the other stream's tick: the guard is process-global, not
stream-scoped. -/
theorem overlap_flag_shared_across_streams :
    (tickA ⟨false, ⟨0, 0⟩, ⟨0, 0⟩⟩).currentlyGettingChanges = true ∧
    (tickB (tickA ⟨false, ⟨0, 0⟩, ⟨0, 0⟩⟩)).streamB.requests = 0 ∧
    (tickB (tickA ⟨false, ⟨0, 0⟩, ⟨0, 0⟩⟩)).streamB.skippedTicks = 1 ∧
    (tickB ⟨false, ⟨0, 0⟩, ⟨0, 0⟩⟩).streamB.requests = 1 := by
  decide

/-- C8 (code bug): the first teardown() succeeds and leaves the terminal
state (interval cleared, slot dropped, client released, subject completed);
a second teardown() re-runs the steps and rejects, because client.release()
is called on the already-released session. -/
theorem second_teardown_rejects :
    teardown ⟨false, true, false, false⟩
      = (⟨true, false, true, true⟩, false) ∧
    (teardown (teardown ⟨false, true, false, false⟩).1).2 = true := by
  decide

/-- C9: any call to getChanges that is not skipped by the guard (it enters
with currentlyGettingChanges = false) leaves the flag false when it settles,
whatever the scripted poll outcomes, slot re-creations, and retry depth: the
finally block clears the flag on the success path, on plain error paths, and
on the 42704 recovery path. -/
theorem overlap_guard_reset_after_settle (db : Nat → PollOutcome)
    (creates : Nat → Bool) (fuel : Nat) (s : GCState)
    (h : s.currentlyGettingChanges = false) :
    ((getChanges db creates fuel s).1).currentlyGettingChanges = false := by
  cases fuel with
  | zero => exact getChangesGo_flag db creates _ s h
  | succ fuel => exact getChangesGo_flag db creates _ s h

/-- Witness for C9 on a poll that fails with 42704. -/
theorem overlap_guard_reset_after_settle_witness :
    (⟨false, 0, 0, 0, 0⟩ : GCState).currentlyGettingChanges = false ∧
    ((getChanges (fun _ => PollOutcome.err "42704") (fun _ => true) 2
        ⟨false, 0, 0, 0, 0⟩).1).currentlyGettingChanges = false :=
  ⟨rfl, overlap_guard_reset_after_settle (fun _ => PollOutcome.err "42704")
    (fun _ => true) 2 ⟨false, 0, 0, 0, 0⟩ rfl⟩

/-- C10: k subscriptions to the observable of observeQuery produce k runners,
each one a fresh copy of the post-subscribe state with its own single initial
query() invocation in flight (so k subscribers cause k independent initial
executions, totalStarts = k), and an event applied to runner i leaves every
other runner's state unchanged: the coalescing state is per-subscriber, not
shared. -/
theorem cold_observable_per_subscriber (k : Nat) (l : List RunnerState)
    (i j : Nat) (e : Ev) (hij : i ≠ j) :
    (subscribeK k).length = k ∧
    (∀ s, s ∈ subscribeK k → s = initRunner) ∧
    totalStarts (subscribeK k) = k ∧
    initRunner.queryStarts = 1 ∧
    initRunner.inFlight = 1 ∧
    (stepAt l i e).get? j = l.get? j := by
  refine ⟨by simp [subscribeK], fun s hs => List.eq_of_mem_replicate hs,
    totalStarts_subscribeK k, rfl, rfl, stepAt_get_ne e l i j hij⟩

/-- Witness for C10 with three subscribers and an event on runner 0 framed
off runner 1. -/
theorem cold_observable_per_subscriber_witness :
    (0 : Nat) ≠ 1 ∧
    (subscribeK 3).length = 3 ∧
    totalStarts (subscribeK 3) = 3 ∧
    (stepAt [initRunner, initRunner] 0 Ev.accept).get? 1 = some initRunner := by
  have h := cold_observable_per_subscriber 3 [initRunner, initRunner] 0 1
    Ev.accept (by decide)
  refine ⟨by decide, h.1, h.2.2.1, ?_⟩
  rw [h.2.2.2.2.2]
  rfl
